import Mathlib

/-!
Verification of the Zero2 on-device controller core: the menu navigator
(src/modules/menu.py), the button debouncer (src/modules/buttons.py), the
power monitor (src/modules/power.py) and the warning-overlay part of the
render coordinator (src/modules/display.py), shallowly embedded in Lean.
Timestamps and durations are modelled as rationals (Python floats carry
exact small decimals here); per-channel dictionaries become functions.
-/

namespace Zero2

/-!
Menu Navigator, from src/modules/menu.py (class MenuSystem).
Screens are the strings used by the source; menu_items is the item table
built in MenuSystem.__init__. selected_index is a Python int, so it is
modelled as an integer and the nonnegative Python modulo is Int.emod.
-/

def MENU_MAIN : String := "main"

def MENU_NETWORK : String := "network"

def MENU_SYSTEM : String := "system"

def MENU_POWER : String := "power"

def ACTION_BACK : String := "back"

def ITEM_DASHBOARD : String := "Dashboard"

def ITEM_NETWORK : String := "Network Info"

def ITEM_SYSTEM : String := "System Info"

def ITEM_POWER : String := "Power Info"

def ITEM_BACK : String := "Back"

structure MenuItem where
  name : String
  action : String
deriving DecidableEq

def menu_items : String → Option (List MenuItem) := fun m =>
  if m = MENU_MAIN then
    some [⟨ITEM_DASHBOARD, MENU_MAIN⟩, ⟨ITEM_NETWORK, MENU_NETWORK⟩,
          ⟨ITEM_SYSTEM, MENU_SYSTEM⟩, ⟨ITEM_POWER, MENU_POWER⟩]
  else if m = MENU_NETWORK then some [⟨ITEM_BACK, ACTION_BACK⟩]
  else if m = MENU_SYSTEM then some [⟨ITEM_BACK, ACTION_BACK⟩]
  else if m = MENU_POWER then some [⟨ITEM_BACK, ACTION_BACK⟩]
  else none

structure MenuState where
  current_menu : String
  menu_stack : List String
  selected_index : Int
deriving DecidableEq

/-- MenuSystem.__init__: current menu main, stack [main], index 0. -/
def MenuState.init : MenuState := ⟨MENU_MAIN, [MENU_MAIN], 0⟩

/-- MenuSystem.enter_menu: if the name is a known menu, push the current
menu on the stack, switch to the new menu and reset the index; an unknown
name is a no-op. -/
def enter_menu (menu_name : String) (s : MenuState) : MenuState :=
  if (menu_items menu_name).isSome then
    ⟨menu_name, s.menu_stack ++ [s.current_menu], 0⟩
  else s

/-- MenuSystem.go_back: if the stack has more than one element, pop its
last element into current_menu and reset the index; otherwise reset the
whole state to the dashboard. -/
def go_back (s : MenuState) : MenuState :=
  if 1 < s.menu_stack.length then
    ⟨s.menu_stack.getLastD MENU_MAIN, s.menu_stack.dropLast, 0⟩
  else
    ⟨MENU_MAIN, [MENU_MAIN], 0⟩

/-- Length of menu_items["main"], the modulus used by navigate_up and
navigate_down. -/
def main_len : Int := (((menu_items MENU_MAIN).getD []).length : Int)

/-- MenuSystem.navigate_up. -/
def navigate_up (s : MenuState) : MenuState :=
  if s.current_menu = MENU_MAIN then
    { s with selected_index := (s.selected_index - 1) % main_len }
  else go_back s

/-- MenuSystem.navigate_down. -/
def navigate_down (s : MenuState) : MenuState :=
  if s.current_menu = MENU_MAIN then
    { s with selected_index := (s.selected_index + 1) % main_len }
  else go_back s

/-- MenuSystem.navigate_left. -/
def navigate_left (s : MenuState) : MenuState := go_back s

/-- Item lookup menu_items["main"][selected_index]; on the states the
system reaches, the index is always in [0, 4), so the Python negative
indexing and IndexError paths are never taken. -/
def main_item_at (i : Int) : MenuItem :=
  ((menu_items MENU_MAIN).getD []).getD i.toNat ⟨ITEM_DASHBOARD, MENU_MAIN⟩

/-- MenuSystem.navigate_right. -/
def navigate_right (s : MenuState) : MenuState :=
  if s.current_menu = MENU_MAIN then
    if (main_item_at s.selected_index).action ≠ MENU_MAIN then
      enter_menu (main_item_at s.selected_index).action s
    else s
  else go_back s

/-- MenuSystem.select. -/
def select (s : MenuState) : MenuState :=
  if s.current_menu = MENU_MAIN then
    if (main_item_at s.selected_index).action = MENU_MAIN then s
    else enter_menu (main_item_at s.selected_index).action s
  else go_back s

/-- One call of the navigation API. -/
inductive MenuOp
  | up
  | down
  | left
  | right
  | sel
  | back
  | enter (menu_name : String)

def applyOp : MenuOp → MenuState → MenuState
  | .up => navigate_up
  | .down => navigate_down
  | .left => navigate_left
  | .right => navigate_right
  | .sel => select
  | .back => go_back
  | .enter n => enter_menu n

def applyOps (ops : List MenuOp) (s : MenuState) : MenuState :=
  ops.foldl (fun t op => applyOp op t) s

lemma go_back_stack_pos (s : MenuState) : 0 < (go_back s).menu_stack.length := by
  unfold go_back
  split
  · next h =>
      simp only [List.length_dropLast]
      omega
  · simp

lemma applyOp_stack_pos (op : MenuOp) (s : MenuState)
    (h : 0 < s.menu_stack.length) : 0 < ((applyOp op) s).menu_stack.length := by
  have henter : ∀ n, 0 < (enter_menu n s).menu_stack.length := by
    intro n
    unfold enter_menu
    split
    · simp
    · exact h
  cases op with
  | up =>
      show 0 < (navigate_up s).menu_stack.length
      unfold navigate_up
      split
      · exact h
      · exact go_back_stack_pos s
  | down =>
      show 0 < (navigate_down s).menu_stack.length
      unfold navigate_down
      split
      · exact h
      · exact go_back_stack_pos s
  | left => exact go_back_stack_pos s
  | right =>
      show 0 < (navigate_right s).menu_stack.length
      unfold navigate_right
      split
      · split
        · exact henter _
        · exact h
      · exact go_back_stack_pos s
  | sel =>
      show 0 < (select s).menu_stack.length
      unfold select
      split
      · split
        · exact h
        · exact henter _
      · exact go_back_stack_pos s
  | back => exact go_back_stack_pos s
  | enter n => exact henter n

lemma applyOps_stack_pos (ops : List MenuOp) (s : MenuState)
    (h : 0 < s.menu_stack.length) : 0 < (applyOps ops s).menu_stack.length := by
  induction ops generalizing s with
  | nil => exact h
  | cons op rest ih =>
      simpa [applyOps, List.foldl_cons] using ih (applyOp op s) (applyOp_stack_pos op s h)

lemma go_back_iter_main (n : Nat) : ∀ s : MenuState, s.menu_stack.length = n →
    0 < n → (go_back^[n] s).current_menu = MENU_MAIN := by
  induction n with
  | zero => intro s _ h0; omega
  | succ k ih =>
      intro s hlen _
      rw [Function.iterate_succ_apply]
      rcases Nat.eq_zero_or_pos k with hk | hk
      · subst hk
        have h1 : ¬ 1 < s.menu_stack.length := by omega
        simp [go_back, h1, MenuState.init]
      · have h1 : 1 < s.menu_stack.length := by omega
        have hlen2 : (go_back s).menu_stack.length = k := by
          unfold go_back
          rw [if_pos h1]
          simp only [List.length_dropLast, hlen]
          omega
        exact ih (go_back s) hlen2 hk

/-- C8: from any state reachable through the navigation API, the menu
stack stays nonempty under every sequence of go_back calls, after
(stack length) many go_back calls the current menu is MENU_MAIN, and a
go_back on a single-element stack resets the state to
(current = "main", stack = ["main"], selected_index = 0). -/
theorem c8_back_invariant (ops : List MenuOp) (n : Nat) :
    ((go_back^[n] (applyOps ops MenuState.init)).menu_stack ≠ [])
    ∧ ((go_back^[(applyOps ops MenuState.init).menu_stack.length]
        (applyOps ops MenuState.init)).current_menu = MENU_MAIN)
    ∧ ((applyOps ops MenuState.init).menu_stack.length = 1 →
        go_back (applyOps ops MenuState.init) = MenuState.init) := by
  have hpos : 0 < (applyOps ops MenuState.init).menu_stack.length :=
    applyOps_stack_pos ops MenuState.init (by simp [MenuState.init])
  refine ⟨?_, ?_, ?_⟩
  · have : ∀ m : Nat, ∀ t : MenuState, 0 < t.menu_stack.length →
        0 < (go_back^[m] t).menu_stack.length := by
      intro m
      induction m with
      | zero => intro t ht; exact ht
      | succ j ihj =>
          intro t _
          rw [Function.iterate_succ_apply]
          exact ihj (go_back t) (go_back_stack_pos t)
    intro hnil
    have := this n (applyOps ops MenuState.init) hpos
    rw [hnil] at this
    simp at this
  · exact go_back_iter_main _ (applyOps ops MenuState.init) rfl hpos
  · intro h1
    have hne : ¬ 1 < (applyOps ops MenuState.init).menu_stack.length := by omega
    unfold go_back
    rw [if_neg hne]
    rfl

/-- Witness for c8_back_invariant at the initial state (empty op list). -/
theorem c8_witness : go_back (applyOps [] MenuState.init) = MenuState.init :=
  (c8_back_invariant [] 0).2.2 (by decide)

/-- C1 fails on the code: from the dashboard with selected_index = 1,
enter_menu of the network screen followed by go_back restores current_menu but resets
selected_index to 0 instead of 1, because go_back always sets
selected_index = 0 (menu.py line 113). -/
theorem c1_counterexample :
    (go_back (enter_menu MENU_NETWORK ⟨MENU_MAIN, [MENU_MAIN], 1⟩)).current_menu
      = MENU_MAIN
    ∧ (go_back (enter_menu MENU_NETWORK ⟨MENU_MAIN, [MENU_MAIN], 1⟩)).selected_index
      ≠ (1 : Int) := by
  decide

/-- C1 amended: from any state on the dashboard, enter_menu of a valid
child screen followed by go_back restores current_menu exactly and sets
selected_index to 0 (so the pair (current_menu, selected_index) is
restored exactly when the prior selected_index was 0). -/
theorem c1_amended_enter_back (s : MenuState) (X : String)
    (hcur : s.current_menu = MENU_MAIN)
    (hX : X = MENU_NETWORK ∨ X = MENU_SYSTEM ∨ X = MENU_POWER) :
    (go_back (enter_menu X s)).current_menu = s.current_menu
    ∧ (go_back (enter_menu X s)).selected_index = 0 := by
  have hsome : (menu_items X).isSome := by
    rcases hX with h | h | h <;> subst h <;> decide
  unfold enter_menu
  rw [if_pos hsome]
  unfold go_back
  by_cases hlen : 1 < (MenuState.mk X (s.menu_stack ++ [s.current_menu]) 0).menu_stack.length
  · rw [if_pos hlen]
    refine ⟨?_, rfl⟩
    show (s.menu_stack ++ [s.current_menu]).getLastD MENU_MAIN = s.current_menu
    exact List.getLastD_concat _ _ _
  · rw [if_neg hlen]
    exact ⟨by simp [hcur], rfl⟩

/-- Witness for c1_amended_enter_back at the initial state. -/
theorem c1_witness :
    (go_back (enter_menu MENU_NETWORK MenuState.init)).current_menu
      = MenuState.init.current_menu
    ∧ (go_back (enter_menu MENU_NETWORK MenuState.init)).selected_index = 0 :=
  c1_amended_enter_back MenuState.init MENU_NETWORK (by decide) (Or.inl rfl)

/-!
Input Debouncer, from src/modules/buttons.py (class ButtonHandler).
The per-channel dictionary last_press_time becomes a function on the fixed
channel set; raw GPIO sampling becomes an Option Bool per channel, where
none covers both an uninitialised button (buttons[name] is None) and a
read error (is_pressed catches the exception): both degrade to
"not pressed" and neither touches any state. check_buttons reads one
timestamp, and per channel emits an accepted press (updating
last_press_time) exactly when the sample is pressed and the debounce
window has elapsed since the last accepted press.
-/

inductive Channel
  | chA
  | chB
  | up
  | down
  | left
  | right
  | sel
deriving DecidableEq

structure ButtonsState where
  last_press_time : Channel → ℚ
  debounce_time : ℚ

/-- ButtonHandler.__init__: last_press_time starts at 0 for every channel
and debounce_time is 0.05 seconds. -/
def ButtonsState.init : ButtonsState := ⟨fun _ => 0, 1 / 20⟩

/-- ButtonHandler.is_pressed with the raw sampling abstracted: an absent
or failing sample reads as not pressed. -/
def is_pressed (sample : Channel → Option Bool) (c : Channel) : Bool :=
  (sample c).getD false

/-- The guard of ButtonHandler.check_buttons for one channel:
is_pressed and current_time - last_press_time > debounce_time. -/
def emits (st : ButtonsState) (now : ℚ) (sample : Channel → Option Bool)
    (c : Channel) : Bool :=
  is_pressed sample c && decide (st.debounce_time < now - st.last_press_time c)

/-- ButtonHandler.check_buttons: the new state together with the set of
channels whose press event was accepted on this call. -/
def check_buttons (st : ButtonsState) (now : ℚ) (sample : Channel → Option Bool) :
    ButtonsState × (Channel → Bool) :=
  (⟨fun c => if emits st now sample c then now else st.last_press_time c,
    st.debounce_time⟩,
   emits st now sample)

/-- Every channel pressed, modelling a continuously held button. -/
def all_pressed : Channel → Option Bool := fun _ => some true

/-- No channel delivers a sample, modelling per-channel read failures. -/
def no_sample : Channel → Option Bool := fun _ => none

/-- C2 fails on the code: with the initial state, a press held at the
checks at times 1 and 2 seconds emits a press event at BOTH checks,
because check_buttons re-fires whenever the elapsed time since the last
accepted event exceeds debounce_time; it keeps no previous raw sample, so
it is a rate limiter, not a rising-edge detector. -/
theorem c2_counterexample :
    ((check_buttons ButtonsState.init 1 all_pressed).2 Channel.up = true)
    ∧ ((check_buttons (check_buttons ButtonsState.init 1 all_pressed).1 2
        all_pressed).2 Channel.up = true) := by
  constructor <;>
    norm_num [check_buttons, emits, is_pressed, all_pressed, ButtonsState.init]

lemma check_buttons_last_after (st : ButtonsState) (t1 : ℚ)
    (s1 : Channel → Option Bool) (c : Channel)
    (h1 : (check_buttons st t1 s1).2 c = true) :
    (check_buttons st t1 s1).1.last_press_time c = t1 := by
  have h1' : emits st t1 s1 c = true := h1
  show (if emits st t1 s1 c then t1 else st.last_press_time c) = t1
  rw [h1']
  rfl

lemma check_buttons_fire_after (st : ButtonsState) (t1 t2 : ℚ)
    (s1 s2 : Channel → Option Bool) (c : Channel)
    (h1 : (check_buttons st t1 s1).2 c = true) :
    (check_buttons (check_buttons st t1 s1).1 t2 s2).2 c = true
      ↔ (is_pressed s2 c = true ∧ st.debounce_time < t2 - t1) := by
  have hl := check_buttons_last_after st t1 s1 c h1
  show emits (check_buttons st t1 s1).1 t2 s2 c = true ↔ _
  unfold emits
  rw [show (check_buttons st t1 s1).1.debounce_time = st.debounce_time from rfl, hl]
  simp [Bool.and_eq_true, decide_eq_true_eq]

/-- C2 amended: after an accepted press event for a channel at time t1, a
later check at time t2 at which the channel is still pressed emits again
exactly when t2 - t1 exceeds debounce_time; so a held press is emitted at
most once per debounce window but re-fires once the window elapses. -/
theorem c2_amended_rate_limit (st : ButtonsState) (t1 t2 : ℚ)
    (s1 s2 : Channel → Option Bool) (c : Channel)
    (h1 : (check_buttons st t1 s1).2 c = true)
    (h2 : is_pressed s2 c = true) :
    (check_buttons (check_buttons st t1 s1).1 t2 s2).2 c = true
      ↔ st.debounce_time < t2 - t1 := by
  rw [check_buttons_fire_after st t1 t2 s1 s2 c h1]
  simp [h2]

/-- Witness for c2_amended_rate_limit: a held press re-fires at time 2
after an accepted event at time 1 with the 0.05 second window. -/
theorem c2_witness :
    ((check_buttons (check_buttons ButtonsState.init 1 all_pressed).1 2
      all_pressed).2 Channel.up = true
      ↔ ButtonsState.init.debounce_time < (2 : ℚ) - 1) :=
  c2_amended_rate_limit ButtonsState.init 1 2 all_pressed all_pressed Channel.up
    (by norm_num [check_buttons, emits, is_pressed, all_pressed, ButtonsState.init])
    (by decide)

/-- C7: two check_buttons calls whose timestamps differ by at most
debounce_time accept at most one press event per channel, whatever the
raw samples are. -/
theorem c7_debounce_window (st : ButtonsState) (t1 t2 : ℚ)
    (s1 s2 : Channel → Option Bool) (c : Channel)
    (h : |t2 - t1| ≤ st.debounce_time) :
    ¬((check_buttons st t1 s1).2 c = true
      ∧ (check_buttons (check_buttons st t1 s1).1 t2 s2).2 c = true) := by
  rintro ⟨h1, h2⟩
  have hlt : st.debounce_time < t2 - t1 :=
    ((check_buttons_fire_after st t1 t2 s1 s2 c h1).mp h2).2
  have hle : t2 - t1 ≤ st.debounce_time := le_trans (le_abs_self _) h
  exact absurd hlt (not_lt.mpr hle)

/-- Witness for c7_debounce_window: two checks 0.025 seconds apart with
the button held cannot both fire. -/
theorem c7_witness :
    ¬((check_buttons ButtonsState.init 1 all_pressed).2 Channel.up = true
      ∧ (check_buttons (check_buttons ButtonsState.init 1 all_pressed).1
          (1 + 1 / 40) all_pressed).2 Channel.up = true) :=
  c7_debounce_window ButtonsState.init 1 (1 + 1 / 40) all_pressed all_pressed
    Channel.up (by rw [abs_le]; constructor <;> norm_num [ButtonsState.init])

/-- C9: one check_buttons call updates last_press_time exactly for the
channels whose event is accepted on that call (to the call timestamp);
for a channel with no accepted event, last_press_time is unchanged, and
the debounce window configuration is never mutated. -/
theorem c9_frame (st : ButtonsState) (now : ℚ) (sample : Channel → Option Bool)
    (c : Channel) :
    ((check_buttons st now sample).2 c = false →
      (check_buttons st now sample).1.last_press_time c = st.last_press_time c)
    ∧ ((check_buttons st now sample).2 c = true →
      (check_buttons st now sample).1.last_press_time c = now)
    ∧ (check_buttons st now sample).1.debounce_time = st.debounce_time := by
  refine ⟨?_, ?_, rfl⟩
  · intro hf
    simp only [check_buttons] at hf ⊢
    simp [hf]
  · intro ht
    simp only [check_buttons] at ht ⊢
    simp [ht]

/-- Witness for c9_frame: a check at time 1 with no sample available
leaves last_press_time for the UP channel unchanged. -/
theorem c9_witness :
    (check_buttons ButtonsState.init 1 no_sample).1.last_press_time Channel.up
      = ButtonsState.init.last_press_time Channel.up :=
  (c9_frame ButtonsState.init 1 no_sample Channel.up).1 (by decide)

/-!
Power Monitor, from src/modules/power.py (class PowerManager).
The monitor loop is embedded as a step function over an explicit state:
idle is the outer polling loop before a low signal is seen, episode start
warned is the inner while loop of one low-battery episode (start is the
episode start_time, warned is the shutdown_warning_sent flag), and done is
the terminated loop (self.running = False after the shutdown command).
Each tick reads one timestamp and one GPIO sample; within a tick the two
time.time() reads of an inner iteration are identified. The observable
side effects of a tick are listed as events: displayWarn, wallWarn and
logWarn are the three channels of _send_warning (carrying
int(seconds_remaining)), clearOverlay is display_manager.clear_warning on
a cancelled episode, and wallFinal, displayFinal and shutdownCmd are the
final broadcast, the final overlay and the shutdown command. A present
display_manager and POWER_NOTIFY_TERMINALS = True are assumed throughout,
so every side-effect call site is recorded.
-/

inductive Sig
  | low
  | high
deriving DecidableEq

inductive PMEvent
  | displayWarn (secs : Int)
  | wallWarn (secs : Int)
  | logWarn (secs : Int)
  | clearOverlay
  | wallFinal
  | displayFinal
  | shutdownCmd
deriving DecidableEq

structure PowerCfg where
  threshold : ℚ
  warning_time : ℚ

/-- PowerManager.__init__ clamps warning_time to the threshold:
self.warning_time = min(warning_time_config, self.threshold). -/
def mkPowerManager (threshold warning_time : ℚ) : PowerCfg :=
  ⟨threshold, min warning_time threshold⟩

/-- Python int() applied to a float: truncation toward zero. -/
def pyInt (r : ℚ) : Int := if r < 0 then ⌈r⌉ else ⌊r⌋

/-- PowerManager._send_warning: the display overlay is updated on every
call; the wall broadcast and the log line fire only when force_log or
int(seconds_remaining) is divisible by 10 or seconds_remaining <= 10. -/
def send_warning (remaining : ℚ) (force_log : Bool) : List PMEvent :=
  let secs := pyInt remaining
  let notify := force_log || decide (secs % 10 = 0) || decide (remaining ≤ 10)
  [PMEvent.displayWarn secs]
    ++ (if notify then [PMEvent.wallWarn secs] else [])
    ++ (if notify then [PMEvent.logWarn secs] else [])

inductive PMState
  | idle
  | episode (start : ℚ) (warned : Bool)
  | done

/-- The body of one iteration of the inner while loop of
PowerManager._monitor_loop, after the loop condition has passed and the
GPIO sample read LOW (power.py lines 114 to 127). -/
def episode_tick (cfg : PowerCfg) (start : ℚ) (warned : Bool) (now : ℚ) :
    PMState × List PMEvent :=
  let remaining := cfg.threshold - (now - start)
  let firstWarn := decide (remaining ≤ cfg.warning_time) && !warned
  let evs1 := if firstWarn then send_warning remaining true else []
  let warned1 := warned || firstWarn
  let evs2 :=
    if warned1 && decide (0 < remaining) then
      send_warning remaining
        (decide (pyInt remaining % 10 = 0) || decide (remaining ≤ 10))
    else []
  (PMState.episode start warned1, evs1 ++ evs2)

/-- The exit of the inner loop with shutdown_triggered still True
(power.py lines 129 to 143): final wall broadcast, final display overlay,
then the shutdown command, after which self.running = False. -/
def final_events : List PMEvent :=
  [PMEvent.wallFinal, PMEvent.displayFinal, PMEvent.shutdownCmd]

/-- One tick of PowerManager._monitor_loop. In idle, a LOW sample starts
an episode at start = now and immediately runs the first inner iteration
(the while condition 0 < threshold is checked with elapsed time 0). In an
episode, the while condition is checked first; if the threshold has
elapsed the loop exits into the shutdown sequence, otherwise a HIGH
sample cancels the episode (clearing the overlay) and a LOW sample runs
the loop body. done absorbs every further tick with no effect. -/
def pm_step (cfg : PowerCfg) (s : PMState) (now : ℚ) (sig : Sig) :
    PMState × List PMEvent :=
  match s with
  | .done => (.done, [])
  | .idle =>
      match sig with
      | .high => (.idle, [])
      | .low =>
          if 0 < cfg.threshold then episode_tick cfg now false now
          else (.done, final_events)
  | .episode start warned =>
      if now - start < cfg.threshold then
        match sig with
        | .high => (.idle, [PMEvent.clearOverlay])
        | .low => episode_tick cfg start warned now
      else (.done, final_events)

/-- Run of the monitor over a list of timestamped samples, collecting the
final state and all emitted events in order. -/
def pm_run (cfg : PowerCfg) (s : PMState) : List (ℚ × Sig) → PMState × List PMEvent
  | [] => (s, [])
  | (t, g) :: rest =>
      ((pm_run cfg (pm_step cfg s t g).1 rest).1,
       (pm_step cfg s t g).2 ++ (pm_run cfg (pm_step cfg s t g).1 rest).2)

/-- The states after each tick of a run. -/
def pm_trace (cfg : PowerCfg) (s : PMState) : List (ℚ × Sig) → List PMState
  | [] => []
  | (t, g) :: rest =>
      (pm_step cfg s t g).1 :: pm_trace cfg (pm_step cfg s t g).1 rest

/-- Map of the implementation state onto the abstract machine of the
spec: 0 = Idle, 1 = LowDetected, 2 = Warning, 3 = ShuttingDown. -/
def phase : PMState → Nat
  | .idle => 0
  | .episode _ false => 1
  | .episode _ true => 2
  | .done => 3

/-- n ticks one second apart starting at time T, all sampling LOW: the
cadence of the inner loop (time.sleep(1)) under a continuously held low
signal. -/
def low_ticks (T : ℚ) (n : Nat) : List (ℚ × Sig) :=
  (List.range n).map (fun (k : Nat) => (T + (k : ℚ), Sig.low))

/-- Threshold 30 s and warning time 10 s, the configuration named by the
spec for the shutdown property. -/
def c4cfg : PowerCfg := mkPowerManager 30 10

/-- Threshold 30 s and warning time 30 s, the constructor defaults
(POWER_THRESHOLD 30, POWER_WARNING_TIME 30). -/
def c3cfg : PowerCfg := mkPowerManager 30 30

lemma pm_step_episode_low_lt (cfg : PowerCfg) (start : ℚ) (w : Bool) (now : ℚ)
    (h : now - start < cfg.threshold) :
    pm_step cfg (PMState.episode start w) now Sig.low = episode_tick cfg start w now := by
  simp [pm_step, h]

lemma pm_step_episode_high_lt (cfg : PowerCfg) (start : ℚ) (w : Bool) (now : ℚ)
    (h : now - start < cfg.threshold) :
    pm_step cfg (PMState.episode start w) now Sig.high
      = (PMState.idle, [PMEvent.clearOverlay]) := by
  simp [pm_step, h]

lemma pm_step_idle_low (cfg : PowerCfg) (now : ℚ) (h : 0 < cfg.threshold) :
    pm_step cfg PMState.idle now Sig.low = episode_tick cfg now false now := by
  simp [pm_step, h]

lemma send_warning_no_shutdown (r : ℚ) (f : Bool) :
    PMEvent.shutdownCmd ∉ send_warning r f := by
  intro hmem
  simp only [send_warning, List.mem_append, List.mem_singleton] at hmem
  rcases hmem with (h | h) | h
  · exact PMEvent.noConfusion h
  · revert h
    split <;> simp
  · revert h
    split <;> simp

lemma episode_tick_no_shutdown (cfg : PowerCfg) (start : ℚ) (w : Bool) (now : ℚ) :
    PMEvent.shutdownCmd ∉ (episode_tick cfg start w now).2 := by
  intro hmem
  simp only [episode_tick, List.mem_append] at hmem
  rcases hmem with h | h
  · revert h
    split
    · exact fun h => send_warning_no_shutdown _ _ h
    · simp
  · revert h
    split
    · exact fun h => send_warning_no_shutdown _ _ h
    · simp

lemma pm_run_done (cfg : PowerCfg) (l : List (ℚ × Sig)) :
    pm_run cfg PMState.done l = (PMState.done, []) := by
  induction l with
  | nil => rfl
  | cons p rest ih =>
      obtain ⟨t, g⟩ := p
      simp [pm_run, pm_step, ih]

lemma pm_trace_done (cfg : PowerCfg) (l : List (ℚ × Sig)) :
    pm_trace cfg PMState.done l = List.replicate l.length PMState.done := by
  induction l with
  | nil => rfl
  | cons p rest ih =>
      obtain ⟨t, g⟩ := p
      simp [pm_trace, pm_step, ih, List.replicate_succ]

lemma pm_run_append (cfg : PowerCfg) (s : PMState) (l1 l2 : List (ℚ × Sig)) :
    pm_run cfg s (l1 ++ l2)
      = ((pm_run cfg (pm_run cfg s l1).1 l2).1,
         (pm_run cfg s l1).2 ++ (pm_run cfg (pm_run cfg s l1).1 l2).2) := by
  induction l1 generalizing s with
  | nil => simp [pm_run]
  | cons p rest ih =>
      obtain ⟨t, g⟩ := p
      simp [pm_run, ih, List.append_assoc]

lemma pm_trace_append (cfg : PowerCfg) (s : PMState) (l1 l2 : List (ℚ × Sig)) :
    pm_trace cfg s (l1 ++ l2)
      = pm_trace cfg s l1 ++ pm_trace cfg (pm_run cfg s l1).1 l2 := by
  induction l1 generalizing s with
  | nil => simp [pm_trace, pm_run]
  | cons p rest ih =>
      obtain ⟨t, g⟩ := p
      simp [pm_trace, pm_run, ih]

/-- Translation of a monitor state by a time offset. -/
def PMState.shift (c : ℚ) : PMState → PMState
  | .idle => .idle
  | .episode start w => .episode (c + start) w
  | .done => .done

lemma phase_shift (c : ℚ) (s : PMState) : phase (PMState.shift c s) = phase s := by
  cases s with
  | episode start w => cases w <;> rfl
  | idle => rfl
  | done => rfl

lemma episode_tick_shift (cfg : PowerCfg) (c start : ℚ) (w : Bool) (now : ℚ) :
    episode_tick cfg (c + start) w (c + now)
      = (PMState.shift c (episode_tick cfg start w now).1,
         (episode_tick cfg start w now).2) := by
  unfold episode_tick
  rw [show c + now - (c + start) = now - start from by ring]
  rfl

lemma pm_step_shift (cfg : PowerCfg) (c : ℚ) (s : PMState) (now : ℚ) (sig : Sig) :
    pm_step cfg (PMState.shift c s) (c + now) sig
      = (PMState.shift c (pm_step cfg s now sig).1, (pm_step cfg s now sig).2) := by
  cases s with
  | done => cases sig <;> rfl
  | idle =>
      cases sig with
      | high => rfl
      | low =>
          show (if 0 < cfg.threshold then episode_tick cfg (c + now) false (c + now)
              else (PMState.done, final_events)) = _
          split
          · next h =>
              rw [episode_tick_shift]
              simp [pm_step, h]
          · next h =>
              simp [pm_step, h, PMState.shift]
  | episode start w =>
      show (if c + now - (c + start) < cfg.threshold then _ else _) = _
      rw [show c + now - (c + start) = now - start from by ring]
      split
      · next h =>
          cases sig with
          | high => simp [pm_step, h, PMState.shift]
          | low =>
              rw [episode_tick_shift]
              simp [pm_step, h]
      · next h =>
          cases sig <;> simp [pm_step, h, PMState.shift]

lemma pm_run_shift (cfg : PowerCfg) (c : ℚ) (s : PMState) (l : List (ℚ × Sig)) :
    pm_run cfg (PMState.shift c s) (l.map (fun p => (c + p.1, p.2)))
      = (PMState.shift c (pm_run cfg s l).1, (pm_run cfg s l).2) := by
  induction l generalizing s with
  | nil => rfl
  | cons p rest ih =>
      obtain ⟨t, g⟩ := p
      simp only [List.map_cons, pm_run, pm_step_shift, ih]

lemma pm_trace_shift (cfg : PowerCfg) (c : ℚ) (s : PMState) (l : List (ℚ × Sig)) :
    pm_trace cfg (PMState.shift c s) (l.map (fun p => (c + p.1, p.2)))
      = (pm_trace cfg s l).map (PMState.shift c) := by
  induction l generalizing s with
  | nil => rfl
  | cons p rest ih =>
      obtain ⟨t, g⟩ := p
      simp only [List.map_cons, pm_trace, pm_step_shift, ih]

lemma low_ticks_shift (T : ℚ) (n : Nat) :
    low_ticks T n = (low_ticks 0 n).map (fun p => (T + p.1, p.2)) := by
  simp [low_ticks, List.map_map, Function.comp]

set_option maxRecDepth 100000 in
set_option maxHeartbeats 2000000 in
lemma c4_zero_state : (pm_run c4cfg PMState.idle (low_ticks 0 31)).1 = PMState.done := by
  norm_num [pm_run, pm_step, episode_tick, send_warning, pyInt, low_ticks,
    c4cfg, mkPowerManager, final_events, List.range_succ]

set_option maxRecDepth 100000 in
set_option maxHeartbeats 2000000 in
lemma c4_zero_count :
    (pm_run c4cfg PMState.idle (low_ticks 0 31)).2.count PMEvent.shutdownCmd = 1 := by
  norm_num [pm_run, pm_step, episode_tick, send_warning, pyInt, low_ticks,
    c4cfg, mkPowerManager, final_events, List.range_succ, List.count_cons]
  decide

set_option maxRecDepth 100000 in
set_option maxHeartbeats 2000000 in
lemma c4_zero_trace :
    (pm_trace c4cfg PMState.idle (low_ticks 0 31)).map phase
      = List.replicate 20 1 ++ List.replicate 10 2 ++ [3] := by
  norm_num [pm_trace, pm_step, episode_tick, send_warning, pyInt, low_ticks,
    c4cfg, mkPowerManager, final_events, List.range_succ, phase, List.replicate]

/-- C4: with threshold 30 s and warning time 10 s, an episode whose
sample reads LOW at every one-second check for the full 30 seconds runs
through LowDetected (phases 1), Warning (phases 2) and ShuttingDown
(phase 3) in that order starting from Idle, emits the shutdown command
exactly once over the whole run however it is extended afterwards, and
the monitor loop terminates (final state done, which absorbs all later
ticks). -/
theorem c4_shutdown_sequence (T : ℚ) (rest : List (ℚ × Sig)) :
    ((pm_run c4cfg PMState.idle (low_ticks T 31 ++ rest)).2.count PMEvent.shutdownCmd = 1)
    ∧ ((pm_run c4cfg PMState.idle (low_ticks T 31 ++ rest)).1 = PMState.done)
    ∧ ((pm_trace c4cfg PMState.idle (low_ticks T 31 ++ rest)).map phase
        = List.replicate 20 1 ++ List.replicate 10 2
          ++ List.replicate (rest.length + 1) 3) := by
  have hT : pm_run c4cfg PMState.idle (low_ticks T 31)
      = (PMState.done, (pm_run c4cfg PMState.idle (low_ticks 0 31)).2) := by
    rw [low_ticks_shift]
    have := pm_run_shift c4cfg T PMState.idle (low_ticks 0 31)
    rw [show PMState.shift T PMState.idle = PMState.idle from rfl] at this
    rw [this, c4_zero_state]
    rfl
  have hTr : pm_trace c4cfg PMState.idle (low_ticks T 31)
      = (pm_trace c4cfg PMState.idle (low_ticks 0 31)).map (PMState.shift T) := by
    rw [low_ticks_shift]
    have := pm_trace_shift c4cfg T PMState.idle (low_ticks 0 31)
    rw [show PMState.shift T PMState.idle = PMState.idle from rfl] at this
    exact this
  refine ⟨?_, ?_, ?_⟩
  · rw [pm_run_append, hT, pm_run_done]
    simpa using c4_zero_count
  · rw [pm_run_append, hT, pm_run_done]
  · rw [pm_trace_append, hT, pm_trace_done, hTr, List.map_append, List.map_map]
    have hphase : phase ∘ PMState.shift T = phase := by
      funext s
      exact phase_shift T s
    rw [hphase, c4_zero_trace]
    simp [List.map_replicate, phase, List.replicate_succ, List.append_assoc]

set_option maxRecDepth 100000 in
set_option maxHeartbeats 2000000 in
/-- C3 fails on the code: under the constructor defaults (threshold 30,
warning time 30), after six one-second LOW ticks the monitor is in the
Warning state (episode with shutdown_warning_sent True, entered at tick
0); the tick at time 6 has remaining = 24 seconds, which is not the first
Warning tick, has int(remaining) not divisible by 10 and is above the
10-second floor, yet the tick still emits a display-overlay notification
(power.py line 123-125 call _send_warning every tick, and _send_warning
line 77-81 updates the display unconditionally). -/
theorem c3_counterexample :
    ((pm_run c3cfg PMState.idle (low_ticks 0 6)).1 = PMState.episode 0 true)
    ∧ ((pm_step c3cfg (PMState.episode 0 true) 6 Sig.low).2 = [PMEvent.displayWarn 24])
    ∧ (pyInt 24 % 10 = 4)
    ∧ ¬((24 : ℚ) ≤ 10)
    ∧ (c3cfg.threshold - ((6 : ℚ) - 0) = 24) := by
  refine ⟨?_, ?_, ?_, ?_, ?_⟩ <;>
    norm_num [pm_run, pm_step, episode_tick, send_warning, pyInt, low_ticks,
      c3cfg, mkPowerManager, final_events, List.range_succ]

/-- C3 amended: on every tick of the Warning period (threshold not yet
elapsed, and either shutdown_warning_sent is already set or remaining has
just reached the warning window, making this the first Warning tick), the
display overlay is updated with int(remaining); the wall broadcast and
the log line are emitted exactly when this is the first Warning tick
(shutdown_warning_sent not yet set, power.py lines 118-120 with
force_log True), or int(remaining) is divisible by 10, or
remaining <= 10 (power.py lines 84-90 and 123-125). -/
theorem c3_amended_warning_ticks (cfg : PowerCfg) (start : ℚ) (warned : Bool)
    (now : ℚ) (h : now - start < cfg.threshold)
    (hw : warned = true ∨ cfg.threshold - (now - start) ≤ cfg.warning_time) :
    (PMEvent.displayWarn (pyInt (cfg.threshold - (now - start)))
        ∈ (pm_step cfg (PMState.episode start warned) now Sig.low).2)
    ∧ (PMEvent.wallWarn (pyInt (cfg.threshold - (now - start)))
          ∈ (pm_step cfg (PMState.episode start warned) now Sig.low).2
        ↔ (warned = false
            ∨ pyInt (cfg.threshold - (now - start)) % 10 = 0
            ∨ cfg.threshold - (now - start) ≤ 10))
    ∧ (PMEvent.logWarn (pyInt (cfg.threshold - (now - start)))
          ∈ (pm_step cfg (PMState.episode start warned) now Sig.low).2
        ↔ (warned = false
            ∨ pyInt (cfg.threshold - (now - start)) % 10 = 0
            ∨ cfg.threshold - (now - start) ≤ 10)) := by
  rw [pm_step_episode_low_lt cfg start warned now h]
  have hrpos : 0 < cfg.threshold - (now - start) := by linarith
  cases warned with
  | true =>
      by_cases h10 : pyInt (cfg.threshold - (now - start)) % 10 = 0 <;>
        by_cases hle : cfg.threshold - (now - start) ≤ 10 <;>
          simp [episode_tick, send_warning, h10, hle, hrpos]
  | false =>
      have hww : cfg.threshold - (now - start) ≤ cfg.warning_time := by
        rcases hw with hw | hw
        · exact absurd hw (by simp)
        · exact hw
      by_cases h10 : pyInt (cfg.threshold - (now - start)) % 10 = 0 <;>
        by_cases hle : cfg.threshold - (now - start) ≤ 10 <;>
          simp [episode_tick, send_warning, h10, hle, hrpos, hww]

/-- Witness for c3_amended_warning_ticks at the defaults configuration:
a later Warning tick (six seconds into an episode, warned already set)
still updates the display, and the first Warning tick of a fresh episode
(warned not yet set) emits the wall broadcast. -/
theorem c3_witness :
    (PMEvent.displayWarn (pyInt (c3cfg.threshold - ((6 : ℚ) - 0)))
      ∈ (pm_step c3cfg (PMState.episode 0 true) 6 Sig.low).2)
    ∧ (PMEvent.wallWarn (pyInt (c3cfg.threshold - ((0 : ℚ) - 0)))
      ∈ (pm_step c3cfg (PMState.episode 0 false) 0 Sig.low).2) :=
  ⟨(c3_amended_warning_ticks c3cfg 0 true 6
      (by norm_num [c3cfg, mkPowerManager]) (Or.inl rfl)).1,
   (c3_amended_warning_ticks c3cfg 0 false 0
      (by norm_num [c3cfg, mkPowerManager])
      (Or.inr (by norm_num [c3cfg, mkPowerManager]))).2.1.mpr (Or.inl rfl)⟩

lemma pm_run_episode_low (cfg : PowerCfg) (start : ℚ) (w : Bool) (lows : List ℚ)
    (h : ∀ t ∈ lows, t - start < cfg.threshold) :
    ∃ w2,
      ((pm_run cfg (PMState.episode start w) (lows.map (fun t => (t, Sig.low)))).1
        = PMState.episode start w2)
      ∧ (PMEvent.shutdownCmd
          ∉ (pm_run cfg (PMState.episode start w) (lows.map (fun t => (t, Sig.low)))).2)
      ∧ (∀ s ∈ pm_trace cfg (PMState.episode start w) (lows.map (fun t => (t, Sig.low))),
          ∃ w3, s = PMState.episode start w3) := by
  induction lows generalizing w with
  | nil => exact ⟨w, rfl, by simp [pm_run], by simp [pm_trace]⟩
  | cons t ts ih =>
      have ht : t - start < cfg.threshold := h t (List.mem_cons_self t ts)
      have hts : ∀ u ∈ ts, u - start < cfg.threshold :=
        fun u hu => h u (List.mem_cons_of_mem t hu)
      have hstep : pm_step cfg (PMState.episode start w) t Sig.low
          = episode_tick cfg start w t := pm_step_episode_low_lt cfg start w t ht
      have hfst : (episode_tick cfg start w t).1
          = PMState.episode start
              (w || (decide (cfg.threshold - (t - start) ≤ cfg.warning_time) && !w)) := rfl
      obtain ⟨w2, hw2, hns, htr⟩ :=
        ih (w || (decide (cfg.threshold - (t - start) ≤ cfg.warning_time) && !w)) hts
      refine ⟨w2, ?_, ?_, ?_⟩
      · simp only [List.map_cons, pm_run, hstep, hfst]
        exact hw2
      · simp only [List.map_cons, pm_run, hstep, hfst, List.mem_append]
        rintro (hmem | hmem)
        · exact episode_tick_no_shutdown cfg start w t (hstep ▸ hmem)
        · exact hns hmem
      · simp only [List.map_cons, pm_trace, hstep, hfst]
        intro s hs
        rcases List.mem_cons.mp hs with rfl | hs2
        · exact ⟨_, rfl⟩
        · exact htr s hs2

/-- C5: from Idle with a positive threshold, an episode whose samples
read LOW at checks all strictly inside the threshold window and whose
sample then reads HIGH at a check still strictly inside the window ends
back in Idle, emits the clearOverlay event, never emits the shutdown
command, and never passes through the terminated (ShuttingDown) state. -/
theorem c5_cancel_before_threshold (cfg : PowerCfg) (t0 th : ℚ) (lows : List ℚ)
    (hpos : 0 < cfg.threshold)
    (hlows : ∀ t ∈ lows, t - t0 < cfg.threshold)
    (hth : th - t0 < cfg.threshold) :
    ((pm_run cfg PMState.idle
        ((t0, Sig.low) :: (lows.map (fun t => (t, Sig.low)) ++ [(th, Sig.high)]))).1
      = PMState.idle)
    ∧ (PMEvent.clearOverlay
        ∈ (pm_run cfg PMState.idle
            ((t0, Sig.low) :: (lows.map (fun t => (t, Sig.low)) ++ [(th, Sig.high)]))).2)
    ∧ (PMEvent.shutdownCmd
        ∉ (pm_run cfg PMState.idle
            ((t0, Sig.low) :: (lows.map (fun t => (t, Sig.low)) ++ [(th, Sig.high)]))).2)
    ∧ (PMState.done
        ∉ pm_trace cfg PMState.idle
            ((t0, Sig.low) :: (lows.map (fun t => (t, Sig.low)) ++ [(th, Sig.high)]))) := by
  have hstep0 : pm_step cfg PMState.idle t0 Sig.low = episode_tick cfg t0 false t0 :=
    pm_step_idle_low cfg t0 hpos
  have hfst0 : (episode_tick cfg t0 false t0).1
      = PMState.episode t0 (false || (decide (cfg.threshold - (t0 - t0) ≤ cfg.warning_time) && !false)) := rfl
  obtain ⟨w2, hw2, hns, htr⟩ :=
    pm_run_episode_low cfg t0
      (false || (decide (cfg.threshold - (t0 - t0) ≤ cfg.warning_time) && !false)) lows hlows
  have hhigh : pm_step cfg (PMState.episode t0 w2) th Sig.high
      = (PMState.idle, [PMEvent.clearOverlay]) :=
    pm_step_episode_high_lt cfg t0 w2 th hth
  have htail : pm_run cfg (PMState.episode t0 w2) [(th, Sig.high)]
      = (PMState.idle, [PMEvent.clearOverlay]) := by
    simp [pm_run, hhigh]
  have hfst : (pm_run cfg PMState.idle
      ((t0, Sig.low) :: (lows.map (fun t => (t, Sig.low)) ++ [(th, Sig.high)]))).1
      = PMState.idle := by
    simp only [pm_run, hstep0, hfst0, pm_run_append, hw2, htail, hhigh]
  have hsnd : (pm_run cfg PMState.idle
      ((t0, Sig.low) :: (lows.map (fun t => (t, Sig.low)) ++ [(th, Sig.high)]))).2
      = (episode_tick cfg t0 false t0).2
        ++ ((pm_run cfg (PMState.episode t0
              (false || (decide (cfg.threshold - (t0 - t0) ≤ cfg.warning_time) && !false)))
              (lows.map (fun t => (t, Sig.low)))).2
            ++ [PMEvent.clearOverlay]) := by
    simp only [pm_run, hstep0, hfst0, pm_run_append, hw2, htail, hhigh,
      List.append_nil]
  have htrace : pm_trace cfg PMState.idle
      ((t0, Sig.low) :: (lows.map (fun t => (t, Sig.low)) ++ [(th, Sig.high)]))
      = PMState.episode t0
          (false || (decide (cfg.threshold - (t0 - t0) ≤ cfg.warning_time) && !false))
        :: (pm_trace cfg (PMState.episode t0
              (false || (decide (cfg.threshold - (t0 - t0) ≤ cfg.warning_time) && !false)))
              (lows.map (fun t => (t, Sig.low)))
            ++ [PMState.idle]) := by
    have htr1 : pm_trace cfg (PMState.episode t0 w2) [(th, Sig.high)] = [PMState.idle] := by
      simp [pm_trace, hhigh]
    simp only [pm_trace, hstep0, hfst0, pm_trace_append, hw2, htr1, hhigh]
  refine ⟨hfst, ?_, ?_, ?_⟩
  · rw [hsnd]
    simp
  · rw [hsnd]
    intro hmem
    rcases List.mem_append.mp hmem with hmem1 | hmem2
    · exact episode_tick_no_shutdown cfg t0 false t0 hmem1
    · rcases List.mem_append.mp hmem2 with hmem3 | hmem4
      · exact hns hmem3
      · simp at hmem4
  · rw [htrace]
    intro hmem
    rcases List.mem_cons.mp hmem with heq | hmem2
    · exact PMState.noConfusion heq
    · rcases List.mem_append.mp hmem2 with hmem3 | hmem4
      · obtain ⟨w3, hw3⟩ := htr PMState.done hmem3
        exact PMState.noConfusion hw3
      · rcases List.mem_cons.mp hmem4 with heq2 | hmem5
        · exact PMState.noConfusion heq2
        · simp at hmem5

/-- The 24 one-second LOW checks at times 1 to 24 of the 25-second
episode in the witness below. -/
def c5_lows : List ℚ := (List.range 24).map (fun (k : Nat) => (k : ℚ) + 1)

/-- Witness for c5_cancel_before_threshold: a low signal held for 25
seconds of the 30-second threshold (LOW checks at 0, 1, ..., 24, HIGH at
25) returns to Idle with the overlay cleared and no shutdown. -/
theorem c5_witness :
    ((pm_run c4cfg PMState.idle
        ((0, Sig.low) :: (c5_lows.map (fun t => (t, Sig.low)) ++ [(25, Sig.high)]))).1
      = PMState.idle)
    ∧ (PMEvent.clearOverlay
        ∈ (pm_run c4cfg PMState.idle
            ((0, Sig.low) :: (c5_lows.map (fun t => (t, Sig.low)) ++ [(25, Sig.high)]))).2)
    ∧ (PMEvent.shutdownCmd
        ∉ (pm_run c4cfg PMState.idle
            ((0, Sig.low) :: (c5_lows.map (fun t => (t, Sig.low)) ++ [(25, Sig.high)]))).2)
    ∧ (PMState.done
        ∉ pm_trace c4cfg PMState.idle
            ((0, Sig.low) :: (c5_lows.map (fun t => (t, Sig.low)) ++ [(25, Sig.high)]))) :=
  c5_cancel_before_threshold c4cfg 0 25 c5_lows
    (by norm_num [c4cfg, mkPowerManager])
    (by
      intro t ht
      unfold c5_lows at ht
      obtain ⟨k, hk, rfl⟩ := List.mem_map.mp ht
      have hk24 : k < 24 := by simpa using hk
      have hkq : (k : ℚ) < 24 := by exact_mod_cast hk24
      have hth : c4cfg.threshold = 30 := by norm_num [c4cfg, mkPowerManager]
      rw [hth]
      linarith)
    (by norm_num [c4cfg, mkPowerManager])

/-!
Render Coordinator warning overlay, from src/modules/display.py (class
DisplayManager). Only the overlay bookkeeping and the content-selection
logic of update_info are in scope; pixel drawing and the status bar are
external. Python truthiness is modelled exactly: the overlay branch of
update_info runs only when warning_message is a nonempty string, and the
expiry check runs only when warning_timeout is a nonzero number (so a
timeout of 0, like None, never expires). update_info returns the state
after the call together with the selected content: the overlay message,
or the screen keyed by the current menu.
-/

structure DisplayState where
  warning_message : Option String
  warning_timeout : Option ℚ
deriving DecidableEq

/-- DisplayManager.__init__: no warning set (display.py lines 147-148). -/
def DisplayState.init : DisplayState := ⟨none, none⟩

/-- Python truthiness of self.warning_message: None and the empty string
are falsy. -/
def str_truthy : Option String → Bool
  | none => false
  | some s => s != ""

/-- Python truthiness of self.warning_timeout: None and 0 are falsy. -/
def opt_truthy : Option ℚ → Bool
  | none => false
  | some q => decide (q ≠ 0)

def EMPTY_MSG : String := ""

/-- DisplayManager.show_warning: store the message; store the timeout,
replaced by time.time() + timeout when the timeout argument is truthy
(so None and 0 are stored as given and never expire). -/
def show_warning (st : DisplayState) (message : String) (timeout : Option ℚ)
    (now : ℚ) : DisplayState :=
  ⟨some message, if opt_truthy timeout then some (now + timeout.getD 0) else timeout⟩

/-- DisplayManager.clear_warning. -/
def clear_warning (st : DisplayState) : DisplayState := ⟨none, none⟩

/-- The non-overlay content update_info can select. -/
inductive Content
  | dashboard
  | networkMenu
  | systemMenu
  | powerMenu
deriving DecidableEq

/-- The menu dispatch at the end of update_info, with the final else
falling back to the dashboard. -/
def content_for (menu : String) : Content :=
  if menu = MENU_MAIN then Content.dashboard
  else if menu = MENU_NETWORK then Content.networkMenu
  else if menu = MENU_SYSTEM then Content.systemMenu
  else if menu = MENU_POWER then Content.powerMenu
  else Content.dashboard

inductive RenderOut
  | overlay (message : String)
  | normal (content : Content)
deriving DecidableEq

/-- DisplayManager.update_info: if the warning message is truthy and the
timeout is truthy and already passed (strictly), clear the warning and
fall through to the menu content in the same call; if the message is
truthy and not expired, render the warning exclusively and return; else
render the content keyed by the current menu. -/
def update_info (st : DisplayState) (menu : String) (now : ℚ) :
    DisplayState × RenderOut :=
  if str_truthy st.warning_message then
    if opt_truthy st.warning_timeout && decide (st.warning_timeout.getD 0 < now) then
      (clear_warning st, RenderOut.normal (content_for menu))
    else
      (st, RenderOut.overlay (st.warning_message.getD EMPTY_MSG))
  else
    (st, RenderOut.normal (content_for menu))

lemma update_info_overlay (st : DisplayState) (menu : String) (now : ℚ) (m : String)
    (hm : st.warning_message = some m) (hne : m ≠ "")
    (hexp : ∀ q, st.warning_timeout = some q → q ≠ 0 → now ≤ q) :
    update_info st menu now = (st, RenderOut.overlay m) := by
  unfold update_info
  rw [hm]
  have htr : str_truthy (some m) = true := by simp [str_truthy, hne]
  rw [htr, if_pos rfl]
  have hguard : (opt_truthy st.warning_timeout
      && decide (st.warning_timeout.getD 0 < now)) = false := by
    cases hq : st.warning_timeout with
    | none => simp [opt_truthy]
    | some q =>
        by_cases hq0 : q = 0
        · subst hq0
          simp [opt_truthy]
        · have hle : now ≤ q := hexp q hq hq0
          simp [opt_truthy, hq0, not_lt.mpr hle]
  rw [hguard]
  simp

/-- C6 fails on the code for the empty message: show_warning with the
empty string and a 2 second timeout followed by an immediate render does
not show the message, because update_info tests the Python truthiness of
warning_message (display.py line 470) and the empty string is falsy, so
the render shows the normal dashboard content instead. -/
theorem c6_counterexample :
    (update_info (show_warning DisplayState.init EMPTY_MSG (some 2) 0) MENU_MAIN 0).2
      ≠ RenderOut.overlay EMPTY_MSG := by
  have hmsg : (show_warning DisplayState.init EMPTY_MSG (some 2) 0).warning_message
      = some EMPTY_MSG := rfl
  unfold update_info
  rw [hmsg]
  have htr : str_truthy (some EMPTY_MSG) = false := by simp [str_truthy, EMPTY_MSG]
  rw [htr]
  simp

/-- C6 amended: for a nonempty message msg and a nonnegative wall-clock
time t0, show_warning(msg, timeout 2) followed by an immediate render
shows msg; a render performed strictly more than 2 seconds later clears
the overlay and shows the content keyed by the current menu instead; and
in general any render with a truthy, unexpired warning renders the
warning message exclusively. -/
theorem c6_amended_overlay_roundtrip (st : DisplayState) (msg menu : String) (t0 : ℚ)
    (hmsg : msg ≠ "") (ht0 : 0 ≤ t0) :
    ((update_info (show_warning st msg (some 2) t0) menu t0).2 = RenderOut.overlay msg)
    ∧ (∀ t, t0 + 2 < t →
        (update_info (show_warning st msg (some 2) t0) menu t).2
          = RenderOut.normal (content_for menu)
        ∧ (update_info (show_warning st msg (some 2) t0) menu t).1.warning_message
          = none)
    ∧ (∀ (st2 : DisplayState) (m : String) (now : ℚ),
        st2.warning_message = some m → m ≠ "" →
        (∀ q, st2.warning_timeout = some q → q ≠ 0 → now ≤ q) →
        (update_info st2 menu now).2 = RenderOut.overlay m) := by
  have h2 : opt_truthy (some (2 : ℚ)) = true := by norm_num [opt_truthy]
  have hst1 : show_warning st msg (some 2) t0 = ⟨some msg, some (t0 + 2)⟩ := by
    unfold show_warning
    rw [h2]
    simp
  refine ⟨?_, ?_, ?_⟩
  · rw [hst1, update_info_overlay ⟨some msg, some (t0 + 2)⟩ menu t0 msg rfl hmsg ?_]
    intro q hq _
    injection hq with hq
    subst hq
    linarith
  · intro t ht
    rw [hst1]
    have hne2 : t0 + 2 ≠ 0 := by linarith
    unfold update_info
    simp [str_truthy, hmsg, opt_truthy, hne2, ht, clear_warning]
  · intro st2 m now hm hne hexp
    rw [update_info_overlay st2 menu now m hm hne hexp]

def WARN_MSG : String := "LOW BATTERY"

/-- Witness for c6_amended_overlay_roundtrip: an immediate render after
show_warning with a nonempty message shows the message. -/
theorem c6_witness :
    (update_info (show_warning DisplayState.init WARN_MSG (some 2) 0) MENU_MAIN 0).2
      = RenderOut.overlay WARN_MSG :=
  (c6_amended_overlay_roundtrip DisplayState.init WARN_MSG MENU_MAIN 0 (by decide)
    (by norm_num)).1

/-- C10 fails on the code for the empty message: show_warning with the
empty string and timeout None sets a warning that no later render shows,
because the truthiness test of update_info skips the overlay branch for
the empty string. -/
theorem c10_counterexample :
    (update_info (show_warning DisplayState.init EMPTY_MSG none 0) MENU_NETWORK 100).2
      ≠ RenderOut.overlay EMPTY_MSG := by
  have hmsg : (show_warning DisplayState.init EMPTY_MSG none 0).warning_message
      = some EMPTY_MSG := rfl
  unfold update_info
  rw [hmsg]
  have htr : str_truthy (some EMPTY_MSG) = false := by simp [str_truthy, EMPTY_MSG]
  rw [htr]
  simp

/-- C10 amended: for a nonempty message, show_warning with timeout None
or 0 sets an overlay that never expires: every later render at any time
shows the overlay and leaves the state unchanged, until clear_warning is
called, after which renders show the content keyed by the current menu. -/
theorem c10_amended_no_expiry (st : DisplayState) (msg menu : String) (t0 : ℚ)
    (hmsg : msg ≠ "") (tm : Option ℚ) (htm : tm = none ∨ tm = some 0) :
    (∀ t, update_info (show_warning st msg tm t0) menu t
        = (show_warning st msg tm t0, RenderOut.overlay msg))
    ∧ (∀ t, (update_info (clear_warning (show_warning st msg tm t0)) menu t).2
        = RenderOut.normal (content_for menu)) := by
  have hfalsy : opt_truthy tm = false := by
    rcases htm with h | h <;> subst h <;> simp [opt_truthy]
  have hst1 : show_warning st msg tm t0 = ⟨some msg, tm⟩ := by
    unfold show_warning
    rw [hfalsy]
    simp
  constructor
  · intro t
    rw [hst1]
    apply update_info_overlay ⟨some msg, tm⟩ menu t msg rfl hmsg
    intro q hq hq0
    rcases htm with h | h <;> rw [h] at hq
    · exact absurd hq (by simp)
    · injection hq with hq
      exact absurd hq.symm hq0
  · intro t
    rw [hst1]
    rfl

/-- Witness for c10_amended_no_expiry: a render 100 seconds after
show_warning with timeout None still shows the message. -/
theorem c10_witness :
    update_info (show_warning DisplayState.init WARN_MSG none 0) MENU_MAIN 100
      = (show_warning DisplayState.init WARN_MSG none 0, RenderOut.overlay WARN_MSG) :=
  (c10_amended_no_expiry DisplayState.init WARN_MSG MENU_MAIN 0 (by decide) none
    (Or.inl rfl)).1 100

end Zero2
